import Mathlib

/-!
Verification development for the nodepay session/heartbeat client
(`src/Main.js`).  The JavaScript program is shallowly embedded: every
side-effecting interaction (HTTP responses, random draws, the clock, the
timer) is passed in explicitly as data, and the control flow of each
function is reproduced as a pure Lean function.
-/

namespace NodepayBot

/-- JS `String.prototype.trim`, as applied to every line read by
`readLines` (src/Main.js line 195): strip leading and trailing
whitespace. -/
def jsTrim (s : String) : String :=
  String.mk (((s.toList.dropWhile Char.isWhitespace).reverse.dropWhile
    Char.isWhitespace).reverse)

/-- `readLines` (src/Main.js lines 188-197): the file stream is abstracted
to its list of raw lines; every line is pushed trimmed. -/
def readLines (rawLines : List String) : List String := rawLines.map jsTrim

/-- Characters matched by the protocol pattern of Node legacy `url.parse`
(a run of `[a-zA-Z0-9.+-]` followed by a colon). -/
def isSchemeChar (c : Char) : Bool :=
  c.isAlpha || c.isDigit || c = '+' || c = '-' || c = '.'

/-- Characters that terminate the authority component in `url.parse`. -/
def isAuthEnd (c : Char) : Bool := c = '/' || c = '?' || c = '#'

/-- Characters legacy `url.parse` accepts in a hostname (its hostname
validation keeps `a-z A-Z 0-9 . - + _` and any code point above 127 and
truncates the hostname at the first other character). -/
def isHostnameChar (c : Char) : Bool :=
  c.isAlpha || c.isDigit || c = '.' || c = '-' || c = '+' || c = '_' || 127 < c.toNat

/-- Lowercasing as applied to hostnames by `url.parse`. -/
def jsToLower (s : String) : String := String.mk (s.toList.map Char.toLower)

/-- Value of a run of decimal digits. -/
def digitsToNat (ds : List Char) : Nat :=
  ds.foldl (fun a c => a * 10 + (c.toNat - 48)) 0

/-- JS `parseInt(s, 10)` as called at src/Main.js line 68: skip leading
whitespace, optional sign, then a run of decimal digits; `none` models
the JS result `NaN` (no digits found, or the argument was `null`). -/
def jsParseInt (s : String) : Option Int :=
  let cs := s.toList.dropWhile Char.isWhitespace
  let sign : Int := if cs.head? = some '-' then -1 else 1
  let body := if cs.head? = some '-' then cs.tail else if cs.head? = some '+' then cs.tail else cs
  let ds := body.takeWhile Char.isDigit
  if ds = [] then none else some (sign * Int.ofNat (digitsToNat ds))

/-- The fields of the Node legacy `url.parse` result that
`ProxyChecker.buildProxyConfig` reads (src/Main.js lines 64-74). -/
structure ParsedUrl where
  protocol : Option String
  hostname : Option String
  port : Option String
deriving Repr, DecidableEq

/-- Split an authority (already cut at `/`, `?`, `#`) into hostname and an
optional trailing all-digit port, mirroring the `:digits$` port rule of
legacy `url.parse`. -/
def splitHostPort (auth : List Char) : List Char × Option (List Char) :=
  let rd := auth.reverse.takeWhile Char.isDigit
  let rrest := auth.reverse.drop rd.length
  if rrest.head? = some ':' then
    if rd = [] then (rrest.tail.reverse, none) else (rrest.tail.reverse, some rd.reverse)
  else (auth, none)

/-- Model of Node legacy `url.parse` (src/Main.js line 64), restricted to
inputs without userinfo and without bracketed IPv6 hosts: a leading
scheme run followed by `://` yields the lowercased protocol, the
hostname and an optional digit port; the hostname is truncated at its
first character outside the hostname charset (the remainder goes to the
path), emptied when longer than 255 characters, and lowercased
otherwise; a scheme run followed by a bare `:` yields only the protocol
(as `url.parse` does on `host:port` strings, whose host run is taken as
the protocol); anything else yields no components. -/
def urlParse (s : String) : ParsedUrl :=
  let cs := s.toList
  let sch := cs.takeWhile isSchemeChar
  let rest := cs.drop sch.length
  if sch = [] then { protocol := none, hostname := none, port := none }
  else if rest.head? = some ':' then
    if rest.tail.take 2 = ['/', '/'] then
      let auth := (rest.tail.drop 2).takeWhile (fun c => !(isAuthEnd c))
      let hp := splitHostPort auth
      let hn := hp.1.takeWhile isHostnameChar
      { protocol := some (jsToLower (String.mk (sch ++ [':'])))
        , hostname := some (if 255 < hn.length then String.mk []
            else jsToLower (String.mk hn))
        , port := hp.2.map String.mk }
    else { protocol := some (jsToLower (String.mk (sch ++ [':'])))
          , hostname := none, port := none }
  else { protocol := none, hostname := none, port := none }

/-- Value returned by `ProxyChecker.buildProxyConfig`: either the plain
`{host, port, protocol}` object of the `http:` branch (line 66-70), or the
`SocksProxyAgent` built from the full proxy string (line 72). -/
inductive ProxyConfig where
  | httpForward (host : Option String) (port : Option Int)
  | socksAgent (spec : String)
deriving Repr, DecidableEq

/-- `ProxyChecker.buildProxyConfig` (src/Main.js lines 63-75): `http:`
protocol gives a forward-proxy object whose port is `parseInt` of the URL
port (`NaN`, i.e. `none`, when the port is absent); `socks5:` gives a
SOCKS agent; every other protocol falls through to `return null`,
modelled by `none`.  No exception is ever raised. -/
def buildProxyConfig (proxy : String) : Option ProxyConfig :=
  let u := urlParse proxy
  if u.protocol = some "http:" then
    some (.httpForward u.hostname (u.port.bind jsParseInt))
  else if u.protocol = some "socks5:" then
    some (.socksAgent proxy)
  else
    none

/-- The identity object extracted from the session response
(`response.data.data`, src/Main.js line 130); every field may be absent
in the dynamic payload. -/
structure SessionIdentityJS where
  uid : Option String
  name : Option String
  browser_id : Option String
deriving Repr, DecidableEq

/-- The observable effect of one `getSession` call: the POST to the
session URL with its `Authorization` header (line 118) and the
`httpAgent` installed when a proxy string is truthy (lines 125-127).
`httpAgentSet = none` models the no-proxy case; `some a` models
`config.httpAgent = buildProxyConfig(proxy)`, where `a = none` is the
JS `null` agent. -/
structure SessionAttempt where
  authorization : String
  userAgent : String
  httpAgentSet : Option (Option ProxyConfig)
deriving Repr, DecidableEq

/-- Environment for the embedded program: the session endpoint response
for a given token and proxy string.  `none` models any transport-level
failure or malformed body (connection refused, timeout, non-2xx). -/
structure Env where
  sessionResult : String → String → Option SessionIdentityJS

/-- The fixed user agent bound in `Bot.connect` (src/Main.js line 88). -/
def userAgentString : String := "Mozilla/5.0 ... Safari/537.3"

/-- `Bot.getSession` (src/Main.js lines 114-134): builds the headers,
installs `buildProxyConfig(proxy)` as `httpAgent` when the proxy string
is truthy, performs exactly one POST to the session URL, and maps every
failure to the single error `Session request failed` (line 132).  The
POST is always attempted: `buildProxyConfig` cannot throw, so no code
path reaches the catch before the request. -/
def getSession (env : Env) (token userAgent proxy : String) :
    Except String SessionIdentityJS × SessionAttempt :=
  let attempt : SessionAttempt :=
    { authorization := "Bearer " ++ token
      , userAgent := userAgent
      , httpAgentSet := if proxy = "" then none else some (buildProxyConfig proxy) }
  match env.sessionResult token proxy with
  | some d => (.ok d, attempt)
  | none => (.error "Session request failed", attempt)

/-- Outcome of one `Bot.connect` call (src/Main.js lines 86-112): either
the session succeeded and a heartbeat interval was started with the
closed-over identity, token and proxy, or the session failed and the
catch branch logged `Rejected`.  The try/catch spans the whole body, so
`connect` never rethrows. -/
inductive ConnectResult where
  | looping (info : SessionIdentityJS) (token : String) (proxy : String)
  | rejected (msg : String)
deriving Repr, DecidableEq

/-- `Bot.connect` (src/Main.js lines 86-112): one unconditional
`getSession` call, then either the interval starts (`looping`) or the
error is logged (`rejected`). -/
def connect (env : Env) (token proxy : String) : ConnectResult × SessionAttempt :=
  let r := getSession env token userAgentString proxy
  match r.1 with
  | .ok info => (.looping info token proxy, r.2)
  | .error msg => (.rejected msg, r.2)

/-- Top-level outcome of `main` after the two input files are read
(src/Main.js lines 227-250). -/
inductive RunOutcome where
  | noTokens
  | noProxies
  | started (results : List ConnectResult)
deriving Repr, DecidableEq

/-- The orchestration of `main` (src/Main.js lines 227-250): read and trim
both files, abort on an empty token list (line 228) or an empty proxy
list (line 235), otherwise take `tokens[0]` (line 240) and call
`bot.connect` once per proxy entry (lines 244-248).  The second
component collects every session-fetch attempt made. -/
def runMain (env : Env) (tokenLines proxyLines : List String) :
    RunOutcome × List SessionAttempt :=
  let tokens := readLines tokenLines
  let proxies := readLines proxyLines
  if tokens.length = 0 then (.noTokens, [])
  else if proxies.length = 0 then (.noProxies, [])
  else
    let token := tokens.headD ""
    let rs := proxies.map (fun p => connect env token p)
    (.started (rs.map Prod.fst), rs.map Prod.snd)

/-- The heartbeat request body built each tick (src/Main.js lines
140-145): exactly the four fields of the `pingData` object literal. -/
structure PingData where
  id : String
  browser_id : String
  timestamp : Nat
  version : String
deriving Repr, DecidableEq

/-- JS `a || b` on a possibly-absent string: absent (`undefined`) and the
empty string are falsy, so both select the fallback. -/
def jsOr (v : Option String) (fallback : String) : String :=
  match v with
  | some s => if s = "" then fallback else s
  | none => fallback

/-- The `pingData` object built at src/Main.js lines 136-145: `id` and
`browser_id` fall back to the hex of a fresh `crypto.randomBytes(8)`
draw (passed in as `randUid` / `randBrowser`), `timestamp` is
`Math.floor(Date.now() / 1000)`, and `version` is the literal string. -/
def buildPingData (info : SessionIdentityJS) (randUid randBrowser : String)
    (nowMs : Nat) : PingData :=
  { id := jsOr info.uid randUid
    , browser_id := jsOr info.browser_id randBrowser
    , timestamp := nowMs / 1000
    , version := "2.2.7" }

/-- The score string computed at src/Main.js line 169. -/
def score (durationMs : Nat) : String :=
  if durationMs < 5000 then "Good" else "Slow"

/-- Observable result of one `sendPing` call: either the POST succeeded
and the payload, duration and score were logged (lines 165-178), or the
POST failed and the catch branch logged the error and returned
(lines 179-183). -/
inductive PingOutcome where
  | sent (data : PingData) (durationMs : Nat) (scoreTag : String)
  | errorLogged (msg : String)
deriving Repr, DecidableEq

/-- Per-tick environment: the two fresh `crypto.randomBytes(8)` hex draws
made inside `sendPing` on that tick, the clock value, the outcome of the
ping POST, and the measured duration. -/
structure TickEnv where
  randUid : String
  randBrowser : String
  nowMs : Nat
  postResult : Except String Unit
  durationMs : Nat

/-- `Bot.sendPing` (src/Main.js lines 136-184): builds `pingData`, then
performs the POST inside a try/catch whose catch logs and returns.  The
`Except` result type records whether an error escapes to the caller;
every path returns `.ok`, because the only awaited operation sits inside
the try block. -/
def sendPing (info : SessionIdentityJS) (randUid randBrowser : String)
    (nowMs : Nat) (postResult : Except String Unit) (durationMs : Nat) :
    Except String PingOutcome :=
  let pingData := buildPingData info randUid randBrowser nowMs
  match postResult with
  | .ok _ => .ok (.sent pingData durationMs (score durationMs))
  | .error e => .ok (.errorLogged e)

/-- One tick of the interval callback body (src/Main.js line 100). -/
def heartbeatTick (info : SessionIdentityJS) (e : TickEnv) :
    Except String PingOutcome :=
  sendPing info e.randUid e.randBrowser e.nowMs e.postResult e.durationMs

/-- State of the interval created at src/Main.js line 98: whether it is
still scheduled (only `clearInterval` on SIGINT, line 107, ever clears
it) and how many times the catch branch at lines 101-104 ran. -/
structure HeartbeatState where
  active : Bool
  callbackCatchCount : Nat
deriving Repr, DecidableEq

/-- The interval callback around `sendPing` (src/Main.js lines 98-105):
a resolved tick leaves the state untouched; a rejected tick is caught
and logged.  Neither branch clears or reschedules the interval. -/
def callbackStep (st : HeartbeatState) (r : Except String PingOutcome) :
    HeartbeatState :=
  if st.active then
    match r with
    | .ok _ => st
    | .error _ => { st with callbackCatchCount := st.callbackCatchCount + 1 }
  else st

/-- Whether the catch branch of the interval callback runs for a given
`sendPing` result. -/
def callbackCatchReached (r : Except String PingOutcome) : Bool :=
  match r with
  | .ok _ => false
  | .error _ => true

/-- Initial timer state right after `setInterval` returns. -/
def initialLoopState : HeartbeatState :=
  { active := true, callbackCatchCount := 0 }

/-- Node `setInterval(f, interval)` semantics for the heartbeat loop:
tick `k` fires at `creationMs + (k+1) * interval` as long as the
interval has not been cleared; each firing runs the callback on that
tick's environment.  Returns the list of (firing time, tick result)
pairs together with the final callback state. -/
def runTicks (info : SessionIdentityJS) (interval : Nat) :
    Nat → HeartbeatState → List TickEnv →
    List (Nat × Except String PingOutcome) × HeartbeatState
  | _, st, [] => ([], st)
  | t, st, e :: rest =>
    if st.active then
      let r := heartbeatTick info e
      let tl := runTicks info interval (t + interval) (callbackStep st r) rest
      ((t + interval, r) :: tl.1, tl.2)
    else ([], st)

/-- Modelled from the spec: the credential-selection rule claimed in
section 6 (`first non-empty line is used as the single active
credential`); the source itself takes `tokens[0]` instead, so this
definition exists only to be compared against `runMain`. -/
def firstNonEmptyLine (rawLines : List String) : Option String :=
  (rawLines.map jsTrim).find? (fun l => l ≠ "")

/-- The list of connect results of a started run (empty on an abort). -/
def startedResults (o : RunOutcome) : List ConnectResult :=
  match o with
  | .started rs => rs
  | _ => []

/-- The browser_id a tick put on the wire, when its POST went through. -/
def sentBrowserId (r : Except String PingOutcome) : Option String :=
  match r with
  | .ok (.sent d _ _) => some d.browser_id
  | _ => none

/-- A session endpoint that accepts every request. -/
def envUp : Env :=
  { sessionResult := fun _ _ =>
      some { uid := some "u1", name := some "node", browser_id := some "b1" } }

/-- A session endpoint that rejects every request. -/
def envDown : Env := { sessionResult := fun _ _ => none }

/-- A session endpoint that accepts exactly one proxy and rejects the rest. -/
def envOnlyGood : Env :=
  { sessionResult := fun _ proxy =>
      if proxy = "http://1.2.3.4:8080"
      then some { uid := some "u1", name := some "node", browser_id := some "b1" }
      else none }

/-! ### Helper lemmas about list scanning and the url model -/

theorem connect_attempt (env : Env) (token proxy : String) :
    (connect env token proxy).2 =
      { authorization := "Bearer " ++ token, userAgent := userAgentString
        , httpAgentSet := if proxy = "" then none else some (buildProxyConfig proxy) } := by
  simp only [connect, getSession]
  cases env.sessionResult token proxy <;> rfl

theorem callbackStep_active (st : HeartbeatState) (r : Except String PingOutcome) :
    (callbackStep st r).active = st.active := by
  cases hst : st.active
  · simp [callbackStep, hst]
  · cases r <;> simp [callbackStep, hst]

theorem runTicks_times (info : SessionIdentityJS) (interval : Nat) :
    ∀ (envs : List TickEnv) (t : Nat) (st : HeartbeatState), st.active = true →
      (runTicks info interval t st envs).1.map Prod.fst
          = (List.range envs.length).map (fun k => t + (k + 1) * interval)
        ∧ (runTicks info interval t st envs).2.active = true
  | [], t, st, h => by simp [runTicks, h]
  | e :: rest, t, st, h => by
    have hstep : (callbackStep st (heartbeatTick info e)).active = true := by
      rw [callbackStep_active]
      exact h
    obtain ⟨ih1, ih2⟩ := runTicks_times info interval rest (t + interval) _ hstep
    simp only [runTicks, if_pos h]
    refine ⟨?_, ih2⟩
    simp only [List.map_cons, ih1, List.length_cons, List.range_succ_eq_map,
      List.map_map]
    refine congrArg₂ List.cons (by ring) ?_
    apply List.map_congr_left
    intro k _
    simp only [Function.comp_apply, Nat.succ_eq_add_one]
    ring

/-! ### Claim theorems -/

/-- Claim C2, counterexample: the claim says a loop whose session payload
omits the browser identifier generates one random hex id and sends the
same browserId on every tick; but `sendPing` draws `crypto.randomBytes`
anew inside each tick, so two ticks of the same loop with different
draws put different browser ids on the wire. -/
theorem C2_counterexample :
    sentBrowserId (heartbeatTick
        { uid := some "u1", name := some "node", browser_id := none }
        { randUid := "aaaa1111bbbb2222", randBrowser := "cccc3333dddd4444"
          , nowMs := 1700000000000, postResult := Except.ok (), durationMs := 1200 })
      = some "cccc3333dddd4444"
    ∧ sentBrowserId (heartbeatTick
        { uid := some "u1", name := some "node", browser_id := none }
        { randUid := "aaaa1111bbbb2222", randBrowser := "eeee5555ffff6666"
          , nowMs := 1700000030000, postResult := Except.ok (), durationMs := 1300 })
      = some "eeee5555ffff6666"
    ∧ sentBrowserId (heartbeatTick
        { uid := some "u1", name := some "node", browser_id := none }
        { randUid := "aaaa1111bbbb2222", randBrowser := "cccc3333dddd4444"
          , nowMs := 1700000000000, postResult := Except.ok (), durationMs := 1200 })
      ≠ sentBrowserId (heartbeatTick
        { uid := some "u1", name := some "node", browser_id := none }
        { randUid := "aaaa1111bbbb2222", randBrowser := "eeee5555ffff6666"
          , nowMs := 1700000030000, postResult := Except.ok (), durationMs := 1300 }) := by
  refine ⟨by decide, by decide, by decide⟩

/-- Claim C2 as amended: when the session payload omits the browser
identifier, each heartbeat tick sends as `browser_id` the fresh random
hex draw made inside `sendPing` on that very tick — the identifier is
regenerated per tick, not generated once and reused. -/
theorem C2_browser_id_per_tick (info : SessionIdentityJS) (e : TickEnv)
    (hb : info.browser_id = none) (hok : e.postResult = Except.ok ()) :
    heartbeatTick info e = .ok (.sent
      { id := jsOr info.uid e.randUid, browser_id := e.randBrowser
        , timestamp := e.nowMs / 1000, version := "2.2.7" }
      e.durationMs (score e.durationMs)) := by
  simp only [heartbeatTick, sendPing, buildPingData, hb, hok, jsOr]

/-- Claim C2 witness: the amended theorem evaluated on one concrete tick. -/
theorem C2_witness :
    heartbeatTick { uid := some "u1", name := some "node", browser_id := none }
        { randUid := "aaaa1111bbbb2222", randBrowser := "cccc3333dddd4444"
          , nowMs := 1700000000000, postResult := Except.ok (), durationMs := 1200 }
      = .ok (.sent
          { id := "u1", browser_id := "cccc3333dddd4444"
            , timestamp := 1700000000, version := "2.2.7" }
          1200 "Good") :=
  (C2_browser_id_per_tick _ _ rfl rfl).trans (by rfl)

/-- Claim C3, counterexample: the claim says session-fetch attempts equal
successfully parsed entries; but a run over the single entry
`ftp://1.2.3.4:8080` — which `buildProxyConfig` fails to parse — still
makes one session-fetch attempt (1 attempt, 0 parsed entries). -/
theorem C3_counterexample :
    (runMain envUp ["tok123"] ["ftp://1.2.3.4:8080"]).2.length = 1
    ∧ (List.filter (fun p => (buildProxyConfig p).isSome)
        (readLines ["ftp://1.2.3.4:8080"])).length = 0 := by
  refine ⟨by decide, by decide⟩

/-- Claim C3 as amended: for every credential list and proxy list that
pass the emptiness checks, the orchestrator makes exactly one
session-fetch attempt per proxy entry — parse failure does not skip the
entry, it just yields a null agent on the attempt. -/
theorem C3_attempts_eq_entries (env : Env) (tokenLines proxyLines : List String)
    (ht : tokenLines ≠ []) (hp : proxyLines ≠ []) :
    (runMain env tokenLines proxyLines).2.length = proxyLines.length := by
  simp only [runMain, readLines]
  rw [if_neg (by simpa using ht), if_neg (by simpa using hp)]
  simp

/-- Claim C3 witness: two entries, one of which fails to parse, still
produce two session-fetch attempts. -/
theorem C3_witness :
    (runMain envUp ["tok123"] ["http://1.2.3.4:8080", "ftp://oops"]).2.length = 2 := by
  have h := C3_attempts_eq_entries envUp ["tok123"]
    ["http://1.2.3.4:8080", "ftp://oops"] (by decide) (by decide)
  simpa using h

/-- Claim C4: the heartbeat timer fires on the fixed schedule
`creation + (k+1) * interval` for every tick, whatever each tick's
outcome is (failures included), and after any number of ticks the
interval is still active: no failure stops the timer, retries early, or
terminates the loop. -/
theorem C4_fixed_schedule (info : SessionIdentityJS) (creationMs interval : Nat)
    (envs : List TickEnv) :
    (runTicks info interval creationMs initialLoopState envs).1.map Prod.fst
        = (List.range envs.length).map (fun k => creationMs + (k + 1) * interval)
    ∧ (runTicks info interval creationMs initialLoopState envs).2.active = true :=
  runTicks_times info interval envs creationMs initialLoopState rfl

/-- Claim C5, counterexample: the claim says the heartbeat body's `id`
always equals the session identity's uid; but for a session whose uid is
the empty string (falsy in JS), `sendPing` substitutes a fresh random
hex id, so the sent `id` differs from the uid. -/
theorem C5_counterexample :
    ({ uid := some "", name := some "node", browser_id := some "b1" }
        : SessionIdentityJS).uid = some ""
    ∧ (buildPingData { uid := some "", name := some "node", browser_id := some "b1" }
        "deadbeef01234567" "fefe7777abab8888" 1700000000123).id
      = "deadbeef01234567"
    ∧ (buildPingData { uid := some "", name := some "node", browser_id := some "b1" }
        "deadbeef01234567" "fefe7777abab8888" 1700000000123).id ≠ "" := by
  refine ⟨by decide, by decide, by decide⟩

/-- Claim C5 as amended: whenever the session identity's uid is present
and non-empty, every heartbeat body is exactly the four fields
`{id, browser_id, timestamp, version}` with `id` the uid, `timestamp`
the unix seconds at build time (`Date.now() / 1000` floored), and
`version` the fixed string `2.2.7`. -/
theorem C5_payload_shape (info : SessionIdentityJS) (u ru rb : String) (nowMs : Nat)
    (hu : info.uid = some u) (hne : u ≠ "") :
    buildPingData info ru rb nowMs =
      { id := u, browser_id := jsOr info.browser_id rb
        , timestamp := nowMs / 1000, version := "2.2.7" } := by
  simp only [buildPingData, jsOr, hu]
  rw [if_neg hne]

/-- Claim C5 witness: the amended theorem evaluated on one concrete
identity and clock value. -/
theorem C5_witness :
    buildPingData { uid := some "u1", name := some "node", browser_id := some "b7" }
        "r1r1r1r1r1r1r1r1" "r2r2r2r2r2r2r2r2" 1712345678901
      = { id := "u1", browser_id := "b7", timestamp := 1712345678, version := "2.2.7" } :=
  (C5_payload_shape _ "u1" "r1r1r1r1r1r1r1r1" "r2r2r2r2r2r2r2r2" 1712345678901
    rfl (by decide)).trans (by decide)

/-- Claim C6: an empty credential file aborts the run before anything
else (no session fetch attempted), and a non-empty credential file with
an empty proxy file aborts likewise; in both cases the attempt list is
empty and no task starts. -/
theorem C6_empty_inputs_abort (env : Env) (tokenLines proxyLines : List String) :
    (tokenLines = [] → runMain env tokenLines proxyLines = (.noTokens, []))
    ∧ (tokenLines ≠ [] → proxyLines = [] →
        runMain env tokenLines proxyLines = (.noProxies, [])) := by
  constructor
  · rintro rfl
    simp [runMain, readLines]
  · intro ht hp
    subst hp
    simp only [runMain, readLines]
    rw [if_neg (by simpa using ht)]
    simp

/-- Claim C6 witness: both aborts evaluated on concrete inputs. -/
theorem C6_witness :
    runMain envUp [] ["http://1.2.3.4:8080"] = (.noTokens, [])
    ∧ runMain envUp ["tok123"] [] = (.noProxies, []) :=
  ⟨(C6_empty_inputs_abort envUp [] ["http://1.2.3.4:8080"]).1 rfl,
   (C6_empty_inputs_abort envUp ["tok123"] []).2 (by decide) rfl⟩

/-- Claim C7, counterexample: the claim says the active credential is the
first non-empty line; but with a credential file whose first line is
blank, every session request carries `Bearer ` (the empty trimmed first
line), not the first non-empty line `tok123`. -/
theorem C7_counterexample :
    firstNonEmptyLine ["", "tok123"] = some "tok123"
    ∧ (runMain envUp ["", "tok123"] ["http://1.2.3.4:8080"]).2.map
        SessionAttempt.authorization = ["Bearer "]
    ∧ ("Bearer " : String) ≠ "Bearer tok123" := by
  refine ⟨by decide, by decide, by decide⟩

/-- Claim C7 as amended: the single active credential used for the
session requests is the first line of the credential file after
trimming, even when that line is empty — leading empty lines are not
skipped. -/
theorem C7_first_line_credential (env : Env) (tokenLines proxyLines : List String)
    (ht : tokenLines ≠ []) (hp : proxyLines ≠ []) :
    (runMain env tokenLines proxyLines).2.map SessionAttempt.authorization
      = proxyLines.map (fun _ => "Bearer " ++ jsTrim (tokenLines.headD "")) := by
  obtain ⟨t0, ts, rfl⟩ : ∃ t0 ts, tokenLines = t0 :: ts := by
    cases tokenLines with
    | nil => exact absurd rfl ht
    | cons a l => exact ⟨a, l, rfl⟩
  simp only [runMain, readLines]
  rw [if_neg (by simp), if_neg (by simpa using hp)]
  simp only [List.map_map, List.map_cons, List.headD_cons, List.headD_cons]
  apply List.map_congr_left
  intro p _
  simp only [Function.comp_apply, connect_attempt]

/-- Claim C7 witness: with a blank first credential line, both attempts
carry the empty-token header. -/
theorem C7_witness :
    (runMain envUp ["", "tok123"] ["http://1.2.3.4:8080", "socks5://5.6.7.8:1080"]).2.map
        SessionAttempt.authorization
      = ["Bearer ", "Bearer "] := by
  have h := C7_first_line_credential envUp ["", "tok123"]
    ["http://1.2.3.4:8080", "socks5://5.6.7.8:1080"] (by decide) (by decide)
  exact h.trans (by decide)

/-- Claim C8: the connect outcome and the session-fetch attempt of the
entry at any position j are exactly those computed from that entry's own
string, the shared token and the environment — no other entry (its parse
outcome or its session outcome) occurs in them, so a failure of a
sibling entry can neither prevent nor cancel them. -/
theorem C8_isolation (env : Env) (tokenLines ps : List String) (j : Nat) (q : String)
    (ht : tokenLines ≠ []) (hj : ps[j]? = some q) :
    (startedResults (runMain env tokenLines ps).1)[j]?
        = some (connect env (jsTrim (tokenLines.headD "")) (jsTrim q)).1
    ∧ (runMain env tokenLines ps).2[j]?
        = some (connect env (jsTrim (tokenLines.headD "")) (jsTrim q)).2 := by
  obtain ⟨t0, ts, rfl⟩ : ∃ t0 ts, tokenLines = t0 :: ts := by
    cases tokenLines with
    | nil => exact absurd rfl ht
    | cons a l => exact ⟨a, l, rfl⟩
  have hps : ps ≠ [] := by
    intro he
    rw [he] at hj
    cases j <;> simp at hj
  simp only [runMain, readLines]
  rw [if_neg (by simp), if_neg (by simpa using hps)]
  simp only [startedResults, List.map_map, List.getElem?_map, hj, Option.map_some,
    List.map_cons, List.headD_cons, Function.comp_apply]
  exact ⟨rfl, rfl⟩

/-- Claim C8 witness: with an environment accepting only the second
entry, the first entry both fails to parse and fails its session fetch,
yet entry 1's outcome and attempt are exactly its own connect result. -/
theorem C8_witness :
    (startedResults (runMain envOnlyGood ["tok123"]
          ["ftp://bad", "http://1.2.3.4:8080"]).1)[1]?
        = some (connect envOnlyGood (jsTrim ((["tok123"] : List String).headD ""))
            (jsTrim "http://1.2.3.4:8080")).1
    ∧ (runMain envOnlyGood ["tok123"] ["ftp://bad", "http://1.2.3.4:8080"]).2[1]?
        = some (connect envOnlyGood (jsTrim ((["tok123"] : List String).headD ""))
            (jsTrim "http://1.2.3.4:8080")).2 :=
  C8_isolation envOnlyGood ["tok123"] ["ftp://bad", "http://1.2.3.4:8080"] 1
    "http://1.2.3.4:8080" (by decide) (by decide)

/-- Claim C9: a tick whose POST resolves is reported with the score tag
`Good` exactly when the measured duration is below 5000 ms and `Slow`
otherwise, and the tag has no effect on the loop: the callback state is
unchanged (no retry, no error, no termination). -/
theorem C9_scoring (info : SessionIdentityJS) (e : TickEnv) (st : HeartbeatState)
    (hok : e.postResult = Except.ok ()) :
    heartbeatTick info e
        = .ok (.sent (buildPingData info e.randUid e.randBrowser e.nowMs)
            e.durationMs (if e.durationMs < 5000 then "Good" else "Slow"))
    ∧ callbackStep st (heartbeatTick info e) = st := by
  constructor
  · simp only [heartbeatTick, sendPing, hok, score]
  · simp only [heartbeatTick, sendPing, hok, callbackStep]
    cases hst : st.active <;> simp

/-- Claim C9 witness: a 3000 ms tick scores `Good`, a 7000 ms tick scores
`Slow`, and neither changes the loop state. -/
theorem C9_witness :
    heartbeatTick { uid := some "u1", name := some "node", browser_id := some "b1" }
        { randUid := "f0f0f0f0f0f0f0f0", randBrowser := "e1e1e1e1e1e1e1e1"
          , nowMs := 1700000000000, postResult := Except.ok (), durationMs := 3000 }
      = .ok (.sent
          { id := "u1", browser_id := "b1", timestamp := 1700000000, version := "2.2.7" }
          3000 "Good")
    ∧ heartbeatTick { uid := some "u1", name := some "node", browser_id := some "b1" }
        { randUid := "f0f0f0f0f0f0f0f0", randBrowser := "e1e1e1e1e1e1e1e1"
          , nowMs := 1700000000000, postResult := Except.ok (), durationMs := 7000 }
      = .ok (.sent
          { id := "u1", browser_id := "b1", timestamp := 1700000000, version := "2.2.7" }
          7000 "Slow")
    ∧ callbackStep initialLoopState (heartbeatTick
        { uid := some "u1", name := some "node", browser_id := some "b1" }
        { randUid := "f0f0f0f0f0f0f0f0", randBrowser := "e1e1e1e1e1e1e1e1"
          , nowMs := 1700000000000, postResult := Except.ok (), durationMs := 3000 })
      = initialLoopState :=
  ⟨((C9_scoring _ _ initialLoopState rfl).1).trans (by rfl),
   ((C9_scoring _ _ initialLoopState rfl).1).trans (by rfl),
   (C9_scoring _ _ initialLoopState rfl).2⟩

/-- Claim C10: `sendPing` never propagates an error to its caller — the
catch branch wrapping the timer callback is unreachable for ping request
failures — and a failed POST is logged inside `sendPing`, which then
returns normally. -/
theorem C10_sendping_total (info : SessionIdentityJS) (e : TickEnv) :
    callbackCatchReached (heartbeatTick info e) = false
    ∧ (∀ msg, e.postResult = Except.error msg →
        heartbeatTick info e = .ok (.errorLogged msg)) := by
  constructor
  · simp only [heartbeatTick, sendPing]
    cases e.postResult <;> rfl
  · intro msg hmsg
    simp [heartbeatTick, sendPing, hmsg]

/-- Claim C10 witness: a concrete failing POST is caught inside
`sendPing`: the callback catch is not reached and the error is logged. -/
theorem C10_witness :
    callbackCatchReached (heartbeatTick
        { uid := some "u1", name := some "node", browser_id := some "b1" }
        { randUid := "d1d1d1d1d1d1d1d1", randBrowser := "c2c2c2c2c2c2c2c2"
          , nowMs := 1700000000000
          , postResult := Except.error "connect ECONNREFUSED", durationMs := 0 })
      = false
    ∧ heartbeatTick
        { uid := some "u1", name := some "node", browser_id := some "b1" }
        { randUid := "d1d1d1d1d1d1d1d1", randBrowser := "c2c2c2c2c2c2c2c2"
          , nowMs := 1700000000000
          , postResult := Except.error "connect ECONNREFUSED", durationMs := 0 }
      = .ok (.errorLogged "connect ECONNREFUSED") :=
  ⟨(C10_sendping_total _ _).1,
   (C10_sendping_total _ _).2 "connect ECONNREFUSED" rfl⟩

end NodepayBot
